import Mathlib

/-!
Shallow embedding of the quiz-platform backend's submission and scoring
workflow (`submitQuiz` in the quiz controller, `getQuestionsForQuiz` and
`getQuestionsByIds` in the question model), together with proofs of the
spec's testable properties about it.

Conventions of the embedding:
* Database rows are plain Lean structures; the question table is a
  `List Question`.
* JavaScript numbers on the scoring path are idealized as exact rationals
  (`ℚ`); the one place the code can produce `NaN` — dividing by a zero
  `totalQuestions` — is represented by `Option ℚ`, with `none` playing the
  role of `NaN` (every `NaN >= c` comparison in the source is false, which
  the `none` branch mirrors).
* `ORDER BY RANDOM()` is modelled by an arbitrary `shuffle` function,
  assumed in the theorems to return a permutation of its input.
* The attempt / user-answer inserts are modelled by explicit state passing
  over a `Store` value; generated attempt ids are the insertion index.
-/

namespace QuizApp

/-- A full row of the `questions` table (`SELECT *`): prompt, options,
correct-answer index and explanation included. -/
structure Question where
  id : String
  topic_id : String
  question : String
  options : List String
  correct_answer : Int
  explanation : String
  difficulty : String
deriving DecidableEq

/-- The client-safe projection `SELECT id, question, options, difficulty`
returned by `getQuestionsForQuiz`: no correct-answer index, no explanation. -/
structure QuestionForQuiz where
  id : String
  question : String
  options : List String
  difficulty : String
deriving DecidableEq

/-- One element of the submitted `answers` array. `time_taken` is optional
because the source reads it as `answer.time_taken || 0`. -/
structure SubmittedAnswer where
  question_id : String
  selected_answer : Int
  time_taken : Option Nat
deriving DecidableEq

/-- One element of the `detailedAnswers` array built by the scoring loop. -/
structure DetailedAnswer where
  question_id : String
  question : String
  options : List String
  selected_answer : Int
  correct_answer : Int
  is_correct : Bool
  explanation : String
  difficulty : String
  time_taken : Nat
deriving DecidableEq

/-- `questionMap.get(qid)` where
`questionMap = new Map(questions.map((q) => [q.id, q]))`: a JavaScript `Map`
built from a list of key-value pairs keeps the last entry for a duplicated
key, hence the lookup searches the reversed list. -/
def questionMapGet (questions : List Question) (qid : String) : Option Question :=
  questions.reverse.find? (fun q => q.id == qid)

/-- The scoring loop of `submitQuiz`: walk the submitted answers in order;
an answer whose `question_id` is absent from the map is skipped by
`if (!question) continue`; otherwise correctness is exact equality
`answer.selected_answer === question.correct_answer`, the correct counter
is bumped, and a detail record is appended. Returns
`(correctCount, detailedAnswers)`. -/
def scoreAnswers (questions : List Question) :
    List SubmittedAnswer → Nat × List DetailedAnswer
  | [] => (0, [])
  | answer :: rest =>
    match questionMapGet questions answer.question_id with
    | none => scoreAnswers questions rest
    | some question =>
      let isCorrect := decide (answer.selected_answer = question.correct_answer)
      let detail : DetailedAnswer :=
        { question_id := question.id
          question := question.question
          options := question.options
          selected_answer := answer.selected_answer
          correct_answer := question.correct_answer
          is_correct := isCorrect
          explanation := question.explanation
          difficulty := question.difficulty
          time_taken := answer.time_taken.getD 0 }
      let tail := scoreAnswers questions rest
      ((if isCorrect then tail.1 + 1 else tail.1), detail :: tail.2)

/-- `percentage = (correctCount / totalQuestions) * 100`; a zero
`totalQuestions` gives `NaN` in the source, modelled as `none`. -/
def rawPercentage (correctCount totalQuestions : Nat) : Option ℚ :=
  if totalQuestions = 0 then none
  else some ((correctCount : ℚ) / (totalQuestions : ℚ) * 100)

/-- `percentage.toFixed(2)` then `parseFloat`: round to two decimal places;
the tie-break of `toFixed` picks the larger candidate, i.e. half-up. -/
def round2 (q : ℚ) : ℚ :=
  (⌊q * 100 + 1 / 2⌋ : ℚ) / 100

def feedbackAplus : String :=
  "Outstanding! You\x27re in the top tier! Keep up the excellent work!"

def feedbackA : String :=
  "Excellent work! You have a strong grasp of this topic!"

def feedbackBplus : String :=
  "Great job! Review the questions you missed to improve further."

def feedbackB : String :=
  "Good effort! Focus on your weak areas to reach the next level."

def feedbackC : String :=
  "Fair performance. More practice will help solidify your understanding."

def feedbackD : String :=
  "You\x27re getting there! Review the basics and try again."

def feedbackF : String :=
  "Keep practicing! Focus on understanding the concepts."

/-- The grade/feedback if-chain of `submitQuiz`, starting from the defaults
`grade = 'F'`, `feedback = <F feedback>`. A `NaN` percentage (`none`) fails
every `>=` comparison, so the defaults survive. -/
def gradeAndFeedback (percentage : Option ℚ) : String × String :=
  match percentage with
  | none => ("F", feedbackF)
  | some p =>
    if p ≥ 90 then ("A+", feedbackAplus)
    else if p ≥ 80 then ("A", feedbackA)
    else if p ≥ 70 then ("B+", feedbackBplus)
    else if p ≥ 60 then ("B", feedbackB)
    else if p ≥ 50 then ("C", feedbackC)
    else if p ≥ 40 then ("D", feedbackD)
    else ("F", feedbackF)

/-- Everything `submitQuiz` computes from `(questions, answers)` before and
inside the response: the `result` object of the 200 response plus the
`topic_analysis` numbers. `percentage` is the rounded response field
(`parseFloat(percentage.toFixed(2))`); `analysis_percentage` is the raw
value placed in `topicAnalysis` (and passed to `createQuizAttempt`). -/
structure ScoreResult where
  score : Nat
  total_questions : Nat
  percentage : Option ℚ
  grade : String
  feedback : String
  answers : List DetailedAnswer
  analysis_correct : Nat
  analysis_total : Nat
  analysis_percentage : Option ℚ
deriving DecidableEq

/-- The pure scoring computation of `submitQuiz` (everything between the
question fetch and the persistence calls, plus the response shaping). -/
def submitScore (questions : List Question) (answers : List SubmittedAnswer) :
    ScoreResult :=
  let correctCount := (scoreAnswers questions answers).1
  let detailedAnswers := (scoreAnswers questions answers).2
  let totalQuestions := answers.length
  let percentage := rawPercentage correctCount totalQuestions
  let gf := gradeAndFeedback percentage
  { score := correctCount
    total_questions := totalQuestions
    percentage := percentage.map round2
    grade := gf.1
    feedback := gf.2
    answers := detailedAnswers
    analysis_correct := correctCount
    analysis_total := totalQuestions
    analysis_percentage := percentage }

/-- The validation at the top of `submitQuiz`:
`if (!topic_slug || !answers || !Array.isArray(answers))` → 400.
`answers = none` models a missing or non-array field; an empty string is
falsy. An empty array is truthy and `Array.isArray([])` holds, so it is
represented by `some []`. Returns `true` when the submission is rejected
with the 400 invalid-submission response. -/
def submissionRejected (topic_slug : String)
    (answers : Option (List SubmittedAnswer)) : Bool :=
  topic_slug == "" || answers.isNone

/-- A row of `quiz_attempts` as written by `createQuizAttempt` (the
generated id is the row's index in the store; the timestamp is out of
scope). The `percentage` column receives the raw, unrounded value. -/
structure AttemptRecord where
  user_id : String
  topic_id : String
  score : Nat
  total_questions : Nat
  percentage : Option ℚ
  time_taken : Nat
deriving DecidableEq

/-- A row of `user_answers` as written by `saveUserAnswer`. -/
structure AnswerRecord where
  attempt_id : Nat
  question_id : String
  selected_answer : Int
  is_correct : Bool
  time_taken : Nat
deriving DecidableEq

/-- The two tables the submit path writes to. -/
structure Store where
  attempts : List AttemptRecord
  userAnswers : List AnswerRecord
deriving DecidableEq

/-- The persistence tail of `submitQuiz`: one `createQuizAttempt` insert
(returning the generated attempt id), then one `saveUserAnswer` insert per
entry of `detailedAnswers`, in order. Returns the updated store, the
attempt id, and the response `result`. -/
def submitPersist (st : Store) (userId topicId : String)
    (questions : List Question) (answers : List SubmittedAnswer)
    (totalTime : Nat) : Store × Nat × ScoreResult :=
  let r := submitScore questions answers
  let attemptId := st.attempts.length
  let attempt : AttemptRecord :=
    { user_id := userId
      topic_id := topicId
      score := r.score
      total_questions := r.total_questions
      percentage := r.analysis_percentage
      time_taken := totalTime }
  let newAnswers := r.answers.map (fun d =>
    ({ attempt_id := attemptId
       question_id := d.question_id
       selected_answer := d.selected_answer
       is_correct := d.is_correct
       time_taken := d.time_taken } : AnswerRecord))
  (⟨st.attempts ++ [attempt], st.userAnswers ++ newAnswers⟩, attemptId, r)

/-- Projection dropping the correct-answer index and explanation — the
column list `id, question, options, difficulty` of `getQuestionsForQuiz`. -/
def stripAnswer (q : Question) : QuestionForQuiz :=
  { id := q.id
    question := q.question
    options := q.options
    difficulty := q.difficulty }

/-- The `WHERE` clause of `getQuestionsForQuiz`: `topic_id = $1`, plus
`AND difficulty = $2` when a difficulty is supplied. -/
def matchesTopic (topicId : String) (difficulty : Option String)
    (q : Question) : Bool :=
  q.topic_id == topicId &&
    (match difficulty with
     | none => true
     | some d => q.difficulty == d)

/-- `getQuestionsForQuiz`:
`SELECT id, question, options, difficulty FROM questions WHERE topic_id = $1
[AND difficulty = $2] ORDER BY RANDOM() LIMIT $n`. The random ordering is an
arbitrary `shuffle` function; theorems assume it permutes its input. -/
def getQuestionsForQuiz (db : List Question)
    (shuffle : List Question → List Question) (topicId : String)
    (limit : Nat) (difficulty : Option String) : List QuestionForQuiz :=
  (((shuffle (db.filter (matchesTopic topicId difficulty))).take limit).map
    stripAnswer)

/-- `getQuestionsByIds`: `SELECT * FROM questions WHERE id = ANY($1)` —
the rows whose id occurs in the requested list; ids matching no row simply
contribute nothing. -/
def getQuestionsByIds (db : List Question) (ids : List String) :
    List Question :=
  db.filter (fun q => ids.contains q.id)

/-- Whether a submitted answer finds its question in the lookup map. -/
def matched (questions : List Question) (a : SubmittedAnswer) : Bool :=
  (questionMapGet questions a.question_id).isSome

/-- The grade bands as the documentation states them: a total, ordered
partition of the percentages with inclusive lower bounds
`>=90→A+, >=80→A, >=70→B+, >=60→B, >=50→C, >=40→D, <40→F`. Written from
the spec's words, to be compared with the source's if-chain. -/
def specGradeBand (p : ℚ) : String :=
  if 90 ≤ p then "A+"
  else if 80 ≤ p then "A"
  else if 70 ≤ p then "B+"
  else if 60 ≤ p then "B"
  else if 50 ≤ p then "C"
  else if 40 ≤ p then "D"
  else "F"

/-- The fixed grade-to-feedback table: each grade maps to exactly one
feedback string. -/
def specFeedbackOf : String → String
  | "A+" => feedbackAplus
  | "A" => feedbackA
  | "B+" => feedbackBplus
  | "B" => feedbackB
  | "C" => feedbackC
  | "D" => feedbackD
  | _ => feedbackF

/-- A sample submitted answer used to instantiate theorems. -/
def sampleAnswer : SubmittedAnswer :=
  { question_id := "q1", selected_answer := 0, time_taken := none }

/-- Sample stored questions for topic `"t"`. -/
def q1 : Question :=
  { id := "q1", topic_id := "t", question := "Q1", options := ["a", "b"]
    correct_answer := 0, explanation := "e1", difficulty := "easy" }

def q2 : Question :=
  { id := "q2", topic_id := "t", question := "Q2", options := ["a", "b"]
    correct_answer := 1, explanation := "e2", difficulty := "easy" }

def q3 : Question :=
  { id := "q3", topic_id := "t", question := "Q3", options := ["a", "b"]
    correct_answer := 1, explanation := "e3", difficulty := "easy" }

/-- Three answers: correct on `q1`, wrong on `q2` and `q3` — one of three
correct, so the raw percentage `100/3` is not exact at two decimals. -/
def threeAnswers : List SubmittedAnswer :=
  [{ question_id := "q1", selected_answer := 0, time_taken := some 5 },
   { question_id := "q2", selected_answer := 0, time_taken := some 5 },
   { question_id := "q3", selected_answer := 0, time_taken := some 5 }]

/-! ## Helper lemmas about the scoring loop -/

/-- Dropping the unmatched answers changes nothing: the loop `continue`s on
them without touching the counter or the detail list. -/
theorem scoreAnswers_filter_matched (questions : List Question) :
    ∀ answers : List SubmittedAnswer,
      scoreAnswers questions (answers.filter (matched questions))
        = scoreAnswers questions answers
  | [] => rfl
  | a :: rest => by
    rcases hq : questionMapGet questions a.question_id with _ | q
    · have hm : matched questions a = false := by simp [matched, hq]
      simp only [List.filter_cons, hm, Bool.false_eq_true, if_false,
        scoreAnswers, hq]
      exact scoreAnswers_filter_matched questions rest
    · have hm : matched questions a = true := by simp [matched, hq]
      simp only [List.filter_cons, hm, if_true, scoreAnswers, hq]
      rw [scoreAnswers_filter_matched questions rest]

/-- The correct counter never exceeds the number of answers walked. -/
theorem scoreAnswers_fst_le (questions : List Question) :
    ∀ answers : List SubmittedAnswer,
      (scoreAnswers questions answers).1 ≤ answers.length
  | [] => Nat.le_refl 0
  | a :: rest => by
    rcases hq : questionMapGet questions a.question_id with _ | q
    · simp only [scoreAnswers, hq, List.length_cons]
      exact Nat.le_succ_of_le (scoreAnswers_fst_le questions rest)
    · simp only [scoreAnswers, hq, List.length_cons]
      split
      · exact Nat.succ_le_succ (scoreAnswers_fst_le questions rest)
      · exact Nat.le_succ_of_le (scoreAnswers_fst_le questions rest)

/-- One detail record per matched answer. -/
theorem scoreAnswers_snd_length (questions : List Question) :
    ∀ answers : List SubmittedAnswer,
      (scoreAnswers questions answers).2.length
        = (answers.filter (matched questions)).length
  | [] => rfl
  | a :: rest => by
    rcases hq : questionMapGet questions a.question_id with _ | q
    · have hm : matched questions a = false := by simp [matched, hq]
      simp only [scoreAnswers, hq, List.filter_cons, hm, Bool.false_eq_true,
        if_false]
      exact scoreAnswers_snd_length questions rest
    · have hm : matched questions a = true := by simp [matched, hq]
      simp only [scoreAnswers, hq, List.filter_cons, hm, if_true,
        List.length_cons]
      rw [scoreAnswers_snd_length questions rest]

/-! ## Claims -/

/-- C1: the claim says a submission with an empty `answers` array is
rejected with a 400 invalid-submission error before any score is computed
or persisted, and that the division by zero is guarded. On the code,
`!answers` is false for `[]` and `Array.isArray([])` holds, so the empty
array passes validation; the percentage becomes `0/0` (`NaN`, here
`none`), and an attempt carrying that `NaN` percentage is persisted. -/
theorem c1_empty_submission_unguarded :
    submissionRejected "javascript" (some []) = false
    ∧ (submitScore [] []).percentage = none
    ∧ (submitScore [] []).grade = "F"
    ∧ (submitPersist ⟨[], []⟩ "u" "t" [] [] 0).1.attempts
        = [⟨"u", "t", 0, 0, none, 0⟩] := by
  refine ⟨by decide, rfl, rfl, rfl⟩

/-- C2: an answer whose `question_id` misses the lookup contributes
neither to the correct count nor to the detail records — the scoring loop
gives the same pair on the matched sublist — while `total_questions` is
the length of the full submitted list, unmatched entries included. -/
theorem c2_unmatched_skipped_total_full (questions : List Question)
    (answers : List SubmittedAnswer) :
    scoreAnswers questions answers
        = scoreAnswers questions (answers.filter (matched questions))
    ∧ (submitScore questions answers).total_questions = answers.length :=
  ⟨(scoreAnswers_filter_matched questions answers).symm, rfl⟩

/-- C6: for every submission, `0 ≤ score ≤ total_questions`, with
`total_questions` the length of the submitted answers list. -/
theorem c6_score_bounds (questions : List Question)
    (answers : List SubmittedAnswer) :
    0 ≤ (submitScore questions answers).score
    ∧ (submitScore questions answers).score
        ≤ (submitScore questions answers).total_questions
    ∧ (submitScore questions answers).total_questions = answers.length :=
  ⟨Nat.zero_le _, scoreAnswers_fst_le questions answers, rfl⟩

/-- C9: `getQuestionsByIds` returns exactly the full stored records whose
id occurs among the requested ids; a requested id with no matching record
is silently absent from the result (the function is total — no error
outcome exists). -/
theorem c9_ids_lookup (db : List Question) (ids : List String)
    (q : Question) :
    q ∈ getQuestionsByIds db ids ↔ q ∈ db ∧ q.id ∈ ids := by
  simp [getQuestionsByIds, List.mem_filter]

/-- C3: the source's grade if-chain realizes exactly the spec's bands with
inclusive lower bounds (so it is a total function of the percentage), each
boundary value lands in the higher band, and the feedback is a fixed
function of the grade alone. -/
theorem c3_grade_bands (p : ℚ) :
    (gradeAndFeedback (some p)).1 = specGradeBand p
    ∧ (gradeAndFeedback (some p)).2
        = specFeedbackOf (gradeAndFeedback (some p)).1
    ∧ (gradeAndFeedback (some 90)).1 = "A+"
    ∧ (gradeAndFeedback (some 80)).1 = "A"
    ∧ (gradeAndFeedback (some 70)).1 = "B+"
    ∧ (gradeAndFeedback (some 60)).1 = "B"
    ∧ (gradeAndFeedback (some 50)).1 = "C"
    ∧ (gradeAndFeedback (some 40)).1 = "D" := by
  refine ⟨?_, ?_, by decide, by decide, by decide, by decide, by decide,
    by decide⟩
  · simp only [gradeAndFeedback, specGradeBand, ge_iff_le]
    split_ifs <;> rfl
  · simp only [gradeAndFeedback, ge_iff_le]
    split_ifs <;> rfl

/-- C4: for every nonempty submission, the `percentage` field of the
response equals `100 * score / total_questions` rounded to two decimal
places. -/
theorem c4_percentage_round2 (questions : List Question)
    (answers : List SubmittedAnswer) (h : answers ≠ []) :
    (submitScore questions answers).percentage
      = some (round2 (100 * ((submitScore questions answers).score : ℚ)
          / ((submitScore questions answers).total_questions : ℚ))) := by
  have hl : answers.length ≠ 0 := by
    simpa [List.length_eq_zero] using h
  simp only [submitScore, rawPercentage, hl, if_false, Option.map_some']
  congr 1
  ring_nf

/-- Witness for C4 at a one-answer submission. -/
theorem c4_percentage_round2_witness :
    ([sampleAnswer] : List SubmittedAnswer) ≠ []
    ∧ (submitScore [] [sampleAnswer]).percentage
        = some (round2 (100 * ((submitScore [] [sampleAnswer]).score : ℚ)
            / ((submitScore [] [sampleAnswer]).total_questions : ℚ))) :=
  ⟨by simp, c4_percentage_round2 [] [sampleAnswer] (by simp)⟩

/-- C5 counterexample: with one of three correct, the `topic_analysis`
percentage is the raw `100/3` while the summary percentage is the rounded
`33.33`, so the analysis block is not identical to the summary numbers. -/
theorem c5_counterexample :
    ¬ ((submitScore [q1, q2, q3] threeAnswers).analysis_percentage
        = (submitScore [q1, q2, q3] threeAnswers).percentage) := by
  have hscore : (scoreAnswers [q1, q2, q3] threeAnswers).1 = 1 := by decide
  have hlen : threeAnswers.length = 3 := by decide
  simp only [submitScore, rawPercentage, hscore, hlen]
  norm_num [round2]

/-- C5 amended: the analysis `correct` and `total` do equal the summary
`score` and `total_questions`, and the analysis percentage is the raw
(unrounded) value whose two-decimal rounding is the summary percentage —
identical only when the raw value is already exact at two decimals. -/
theorem c5_analysis_vs_summary (questions : List Question)
    (answers : List SubmittedAnswer) :
    (submitScore questions answers).analysis_correct
        = (submitScore questions answers).score
    ∧ (submitScore questions answers).analysis_total
        = (submitScore questions answers).total_questions
    ∧ (submitScore questions answers).percentage
        = ((submitScore questions answers).analysis_percentage).map round2 :=
  ⟨rfl, rfl, rfl⟩

/-- C7: whatever order `ORDER BY RANDOM()` produces, `getQuestionsForQuiz`
returns at most `limit` elements, and every element is the safe projection
(id, prompt, options, difficulty — no correct answer, no explanation) of a
stored question that matches the topic/difficulty filter. -/
theorem c7_quiz_questions_safe (db : List Question)
    (shuffle : List Question → List Question)
    (hshuffle : ∀ l, List.Perm (shuffle l) l) (topicId : String)
    (limit : Nat) (difficulty : Option String) :
    (getQuestionsForQuiz db shuffle topicId limit difficulty).length ≤ limit
    ∧ ∀ r ∈ getQuestionsForQuiz db shuffle topicId limit difficulty,
        ∃ q, q ∈ db ∧ matchesTopic topicId difficulty q = true
          ∧ r = stripAnswer q := by
  constructor
  · simp only [getQuestionsForQuiz, List.length_map, List.length_take]
    exact Nat.min_le_left _ _
  · intro r hr
    simp only [getQuestionsForQuiz, List.mem_map] at hr
    obtain ⟨q, hq, hqr⟩ := hr
    have hq2 : q ∈ shuffle (db.filter (matchesTopic topicId difficulty)) :=
      List.take_subset _ _ hq
    have hq3 : q ∈ db.filter (matchesTopic topicId difficulty) :=
      (hshuffle _).subset hq2
    rw [List.mem_filter] at hq3
    exact ⟨q, hq3.1, hq3.2, hqr.symm⟩

/-- Witness for C7: the identity reordering on the three sample
questions with limit 2. -/
theorem c7_quiz_questions_safe_witness :
    (getQuestionsForQuiz [q1, q2, q3] (fun l => l) "t" 2 none).length ≤ 2
    ∧ ∀ r ∈ getQuestionsForQuiz [q1, q2, q3] (fun l => l) "t" 2 none,
        ∃ q, q ∈ [q1, q2, q3] ∧ matchesTopic "t" none q = true
          ∧ r = stripAnswer q :=
  c7_quiz_questions_safe [q1, q2, q3] (fun l => l)
    (fun l => List.Perm.refl l) "t" 2 none

/-- C8: scoring is a pure function of the submitted answers and the
authoritative questions, so resubmitting the same answer set against the
same store state yields the identical `result`; nothing deduplicates —
each call appends one more attempt row (with a fresh id) carrying the
identical score. -/
theorem c8_deterministic_no_dedup (st : Store) (userId topicId : String)
    (questions : List Question) (answers : List SubmittedAnswer)
    (totalTime : Nat) :
    (submitPersist st userId topicId questions answers totalTime).2.2
      = (submitPersist
            (submitPersist st userId topicId questions answers totalTime).1
            userId topicId questions answers totalTime).2.2
    ∧ (submitPersist
          (submitPersist st userId topicId questions answers totalTime).1
          userId topicId questions answers totalTime).1.attempts.length
        = st.attempts.length + 2
    ∧ (submitPersist st userId topicId questions answers totalTime).2.1
        ≠ (submitPersist
            (submitPersist st userId topicId questions answers totalTime).1
            userId topicId questions answers totalTime).2.1
    ∧ ∃ rec : AttemptRecord,
        (submitPersist
            (submitPersist st userId topicId questions answers totalTime).1
            userId topicId questions answers totalTime).1.attempts
          = st.attempts ++ [rec, rec]
        ∧ rec.score = (submitScore questions answers).score := by
  refine ⟨rfl, by simp [submitPersist], by simp [submitPersist], ?_⟩
  refine ⟨{ user_id := userId, topic_id := topicId
            score := (submitScore questions answers).score
            total_questions := (submitScore questions answers).total_questions
            percentage := (submitScore questions answers).analysis_percentage
            time_taken := totalTime }, ?_, rfl⟩
  simp [submitPersist, List.append_assoc]

/-- C10: the number of persisted `user_answers` rows is the number of
submitted answers whose question id matched an authoritative question —
unmatched ids produce no row — and on the concrete one-answer submission
with no matching question the stored row count (0) is strictly below the
stored `total_questions` (1). -/
theorem c10_saved_answers_matched (st : Store) (userId topicId : String)
    (questions : List Question) (answers : List SubmittedAnswer)
    (totalTime : Nat) :
    (submitPersist st userId topicId questions answers
        totalTime).1.userAnswers.length
      = st.userAnswers.length
          + (answers.filter (matched questions)).length
    ∧ (submitPersist ⟨[], []⟩ "u" "t" [] [sampleAnswer]
          0).1.userAnswers.length
        < (submitPersist ⟨[], []⟩ "u" "t" [] [sampleAnswer]
            0).2.2.total_questions := by
  constructor
  · simp [submitPersist, submitScore, scoreAnswers_snd_length]
  · decide

end QuizApp
